import Mathlib

noncomputable section

/-!
Shallow embedding of the temporal Gaussian-splatting core of the
`freetimegs_finetune` package (`_gaussians.py`, `_utils.py`), over exact
real arithmetic.  Tensors of shape `(n, 3)` / `(n, 4)` are lists of
tuples, tensors of shape `(n, 1)` are lists of reals (the trailing
singleton dimension is dropped), and three-dimensional tensors of shape
`(n, w, 3)` (resp. matrices of shape `(n, w)`) carry their second
dimension explicitly, as PyTorch tensors do, next to the row data.
-/

/-- A 3-vector, one row of an `(n, 3)` tensor. -/
abbrev Vec3 : Type := ℝ × ℝ × ℝ

/-- A 4-vector (quaternion), one row of an `(n, 4)` tensor. -/
abbrev Vec4 : Type := ℝ × ℝ × ℝ × ℝ

/-- A tensor of shape `(n, width, …)`: the second dimension is part of the
shape (PyTorch keeps it even for zero rows), the rows are the data. -/
structure Mat (α : Type) where
  width : ℕ
  rows : List (List α)

/-- Componentwise addition of two 3-vectors (broadcast `+` on `(n,3)` rows). -/
def vadd3 (a b : Vec3) : Vec3 := (a.1 + b.1, a.2.1 + b.2.1, a.2.2 + b.2.2)

/-- Scalar multiplication of a 3-vector (broadcast `*` on `(n,3)` rows). -/
def smul3 (c : ℝ) (v : Vec3) : Vec3 := (c * v.1, c * v.2.1, c * v.2.2)

/-- `torch.sigmoid`. -/
def sigmoid (x : ℝ) : ℝ := 1 / (1 + Real.exp (-x))

/-- `torch.clamp(x, lo, hi)`. -/
def clampR (x lo hi : ℝ) : ℝ := min (max x lo) hi

/-- `torch.logit(y) = log (y / (1 - y))`. -/
def torchLogit (y : ℝ) : ℝ := Real.log (y / (1 - y))

/-- The `DynamicGaussians` parameter container from `_gaussians.py`:
nine per-primitive arrays plus the derived `sh_degree`. -/
structure DynamicGaussians where
  means : List Vec3
  scales : List Vec3
  quats : List Vec4
  opacities : List ℝ
  sh_0 : List Vec3
  sh_n : Mat Vec3
  times : List ℝ
  durations : List ℝ
  velocities : List Vec3
  sh_degree : ℕ

/-- `DynamicGaussians.__init__`: stores the nine arrays as given (the
`.float()` precision coercion is the identity in the real-number model)
and derives `sh_degree = isqrt(sh_n.shape[1] + 1) - 1`.  The constructor
performs no shape validation. -/
def DynamicGaussians.initSet (means scales : List Vec3) (quats : List Vec4)
    (opacities : List ℝ) (sh0 : List Vec3) (shN : Mat Vec3)
    (times durations : List ℝ) (velocities : List Vec3) : DynamicGaussians :=
  { means := means
    scales := scales
    quats := quats
    opacities := opacities
    sh_0 := sh0
    sh_n := shN
    times := times
    durations := durations
    velocities := velocities
    sh_degree := Nat.sqrt (shN.width + 1) - 1 }

/-- The `ShapeError` failure the specification attributes to construction. -/
inductive ShapeError where
  | mk : ShapeError

/-- Construction with its (Python-exception) error channel made explicit:
the source constructor contains no `raise` and no shape check, so every
input is accepted. -/
def DynamicGaussians.construct (means scales : List Vec3) (quats : List Vec4)
    (opacities : List ℝ) (sh0 : List Vec3) (shN : Mat Vec3)
    (times durations : List ℝ) (velocities : List Vec3) :
    Except ShapeError DynamicGaussians :=
  Except.ok (DynamicGaussians.initSet means scales quats opacities sh0 shN
    times durations velocities)

/-- Whether `w` is a valid `sh_n` width: `isqrt(w+1) - 1` recovers an exact
spherical-harmonic degree, i.e. `w + 1` is a perfect square. -/
def validShWidth (w : ℕ) : Bool :=
  Nat.sqrt (w + 1) * Nat.sqrt (w + 1) == w + 1

/-- `len(g)`: the leading dimension, read off `means` as in `__len__`. -/
def DynamicGaussians.count (g : DynamicGaussians) : ℕ := g.means.length

/-- One scalar entry of `temporal_opacity`:
`sigmoid(opacity) * exp(-0.5 * ((t - time) / exp(duration))^2)`. -/
def gaussOpacity (o tc dur t : ℝ) : ℝ :=
  sigmoid o * Real.exp (-(1 / 2) * ((t - tc) / Real.exp dur) ^ 2)

/-- `DynamicGaussians.temporal_opacity(t)` as the elementwise broadcast over
the primitive index. -/
def DynamicGaussians.temporal_opacity (g : DynamicGaussians) (t : ℝ) : List ℝ :=
  (List.range g.count).map fun i =>
    gaussOpacity (g.opacities.getD i 0) (g.times.getD i 0) (g.durations.getD i 0) t

/-- `DynamicGaussians.temporal_opacity_logit(t)`: clamp the sigmoid-space
opacity into `[1e-8, 1 - 1e-8]`, then apply `torch.logit`. -/
def DynamicGaussians.temporal_opacity_logit (g : DynamicGaussians) (t : ℝ) : List ℝ :=
  (g.temporal_opacity t).map fun y => torchLogit (clampR y 1e-8 (1 - 1e-8))

/-- `DynamicGaussians.temporal_means(t) = means + (t - times) * velocities`. -/
def DynamicGaussians.temporal_means (g : DynamicGaussians) (t : ℝ) : List Vec3 :=
  (List.range g.count).map fun i =>
    vadd3 (g.means.getD i (0, 0, 0))
      (smul3 (t - g.times.getD i 0) (g.velocities.getD i (0, 0, 0)))

/-- `DynamicGaussians.empty(sh_degree)`: the zero-primitive set; the empty
`sh_n` tensor keeps its second dimension `(sh_degree + 1)^2 - 1`. -/
def DynamicGaussians.emptySet (d : ℕ) : DynamicGaussians :=
  DynamicGaussians.initSet [] [] [] [] [] { width := (d + 1) ^ 2 - 1, rows := [] }
    [] [] []

/-- `torch.cat` along dimension 0 for shape-carrying tensors. -/
def Mat.cat {α : Type} (a b : Mat α) : Mat α :=
  { width := a.width, rows := a.rows ++ b.rows }

/-- `DynamicGaussians.__or__`: a new set whose every array is the ordered
concatenation of the two operands' arrays, rebuilt through the constructor. -/
def DynamicGaussians.orOp (a b : DynamicGaussians) : DynamicGaussians :=
  DynamicGaussians.initSet (a.means ++ b.means) (a.scales ++ b.scales)
    (a.quats ++ b.quats) (a.opacities ++ b.opacities) (a.sh_0 ++ b.sh_0)
    (a.sh_n.cat b.sh_n) (a.times ++ b.times) (a.durations ++ b.durations)
    (a.velocities ++ b.velocities)

/-- The `LoadError` failure the specification attributes to `load`. -/
inductive LoadError where
  | mk : LoadError

/-- The deserialized content of a checkpoint file: a full
`DynamicGaussians` object, a mapping of the nine parameter arrays, or
anything else. -/
inductive CheckpointContent where
  | fullObject (g : DynamicGaussians)
  | paramDict (means scales : List Vec3) (quats : List Vec4)
      (opacities : List ℝ) (sh0 : List Vec3) (shN : Mat Vec3)
      (times durations : List ℝ) (velocities : List Vec3)
  | unrecognized

/-- Whether the deserialized content is one of the two recognized forms. -/
def recognizedContent : CheckpointContent → Bool
  | CheckpointContent.fullObject _ => true
  | CheckpointContent.paramDict _ _ _ _ _ _ _ _ _ => true
  | CheckpointContent.unrecognized => false

/-- `DynamicGaussians.load`: returns the object if it is an instance of the
class, reconstructs via the constructor if it is a dict, and otherwise
falls off the end of the function — Python's implicit `return None`,
modelled as `Except.ok none`.  No exception is raised on the unrecognized
branch. -/
def DynamicGaussians.load : CheckpointContent → Except LoadError (Option DynamicGaussians)
  | CheckpointContent.fullObject g => Except.ok (some g)
  | CheckpointContent.paramDict m s q o s0 sn t d v =>
      Except.ok (some (DynamicGaussians.initSet m s q o s0 sn t d v))
  | CheckpointContent.unrecognized => Except.ok none

/-- Per-row normalized entropy computed by `entropy_indices`.  The source
line `H = -(p * (p.add_(eps).log())).sum(dim=1)` adds `eps` to `p`
**in place** before the product is taken, so both factors see `p + eps`. -/
def rowU (row : List ℝ) (T : ℕ) (eps : ℝ) : ℝ :=
  let row_sum := row.sum + eps
  let p := row.map fun v => v / row_sum
  let q := p.map fun v => v + eps
  let H := -((q.map fun v => v * Real.log v).sum)
  H / Real.log (T : ℝ)

/-- The per-row normalized entropy as the specification words it:
`H = -Σ p·log(p + eps)` with `p = x / (row_sum + eps)`.  Written from the
spec, to be compared with `rowU`, which is written from the source. -/
def rowUspec (row : List ℝ) (T : ℕ) (eps : ℝ) : ℝ :=
  let row_sum := row.sum + eps
  let p := row.map fun v => v / row_sum
  let H := -((p.map fun v => v * Real.log (v + eps)).sum)
  H / Real.log (T : ℝ)

/-- `entropy_indices(x, entropy_threshold, eps)`: per row of the `N×T`
matrix, the boolean `normalized entropy >= entropy_threshold` (defaults in
the source: threshold `0.75`, `eps = 1e-12`). -/
def entropy_indices (x : Mat ℝ) (entropy_threshold eps : ℝ) : List Prop :=
  x.rows.map fun row => entropy_threshold ≤ rowU row x.width eps

/-- `torch.stack(cols, dim=1)` for a list of equal-length vectors: the
result has one row per index `i`, holding entry `i` of every column. -/
def stackDim1 (cols : List (List ℝ)) : Mat ℝ :=
  { width := cols.length
    rows := (List.range (cols.headD []).length).map fun i =>
      cols.map fun col => col.getD i 0 }

/-- `evenly_distributed_bool(gs, entropy_threshold, eps)`: sample
`temporal_opacity(idx / fps)` for `idx in range(300)` with `fps = 30`,
stack along dimension 1, and apply `entropy_indices`. -/
def evenly_distributed_bool (g : DynamicGaussians) (entropy_threshold eps : ℝ) :
    List Prop :=
  let opacity_list := (List.range 300).map fun (idx : ℕ) =>
    g.temporal_opacity ((idx : ℝ) / 30)
  entropy_indices (stackDim1 opacity_list) entropy_threshold eps

/-- The `N×300` sampling matrix named by the specification: entry `(i, k)`
is primitive `i`'s opacity at time `k / 30`. -/
def sampleMat (g : DynamicGaussians) : Mat ℝ :=
  { width := 300
    rows := (List.range g.count).map fun i =>
      (List.range 300).map fun (k : ℕ) =>
        (g.temporal_opacity ((k : ℝ) / 30)).getD i 0 }

/-- The per-frame visibility filter (`opacity_bool` in `_utils.py`, the
spec's `visible_at`): `temporal_opacity(t) > threshold`, elementwise; the
script instantiates the threshold at `0.005`. -/
def DynamicGaussians.opacity_bool (g : DynamicGaussians) (t threshold : ℝ) :
    List Prop :=
  (g.temporal_opacity t).map fun y => threshold < y

/-! ### Concrete sets used by witnesses -/

/-- A single primitive with `sigmoid`-logit `2`, time center `2`,
log-duration `0`, at the origin with no velocity. -/
def gPeak : DynamicGaussians :=
  DynamicGaussians.initSet [(0, 0, 0)] [(0, 0, 0)] [(0, 0, 0, 0)] [2] [(0, 0, 0)]
    { width := 0, rows := [[]] } [2] [0] [(0, 0, 0)]

/-- A single primitive with `mean = [0,0,0]`, `time_center = 1`,
`velocity = [2,0,0]` (the spec's position-linearity example). -/
def gLinear : DynamicGaussians :=
  DynamicGaussians.initSet [(0, 0, 0)] [(0, 0, 0)] [(0, 0, 0, 0)] [0] [(0, 0, 0)]
    { width := 0, rows := [[]] } [1] [0] [(2, 0, 0)]

/-- A single primitive whose peak opacity is `sigmoid 0 = 1/2`, centered at
time `0`. -/
def gHalf : DynamicGaussians :=
  DynamicGaussians.initSet [(0, 0, 0)] [(0, 0, 0)] [(0, 0, 0, 0)] [0] [(0, 0, 0)]
    { width := 0, rows := [[]] } [0] [0] [(0, 0, 0)]

/-! ### Helper lemmas -/

theorem getD_range_map {β : Type} (f : ℕ → β) (n i : ℕ) (d : β) (h : i < n) :
    ((List.range n).map f).getD i d = f i := by
  rw [List.getD_eq_getElem?_getD, List.getElem?_map, List.getElem?_range h]
  rfl

theorem getD_map_lt {α β : Type} (l : List α) (f : α → β) (i : ℕ)
    (h : i < l.length) (d : β) (d' : α) :
    (l.map f).getD i d = f (l.getD i d') := by
  rw [List.getD_eq_getElem?_getD, List.getElem?_map,
    List.getElem?_eq_getElem h, List.getD_eq_getElem _ _ h]
  rfl

theorem sigmoid_pos (x : ℝ) : 0 < sigmoid x := by
  unfold sigmoid
  positivity

theorem gaussOpacity_pos (o tc dur t : ℝ) : 0 < gaussOpacity o tc dur t :=
  mul_pos (sigmoid_pos o) (Real.exp_pos _)

theorem gaussOpacity_le_sigmoid (o tc dur t : ℝ) :
    gaussOpacity o tc dur t ≤ sigmoid o := by
  unfold gaussOpacity
  have h1 : Real.exp (-(1 / 2) * ((t - tc) / Real.exp dur) ^ 2) ≤ 1 := by
    rw [Real.exp_le_one_iff]
    nlinarith [sq_nonneg ((t - tc) / Real.exp dur)]
  nlinarith [sigmoid_pos o, Real.exp_pos (-(1 / 2) * ((t - tc) / Real.exp dur) ^ 2)]

theorem gaussOpacity_peak (o tc dur : ℝ) : gaussOpacity o tc dur tc = sigmoid o := by
  unfold gaussOpacity
  simp

theorem gaussOpacity_strictAnti (o tc dur t1 t2 : ℝ)
    (h : |t1 - tc| < |t2 - tc|) :
    gaussOpacity o tc dur t2 < gaussOpacity o tc dur t1 := by
  unfold gaussOpacity
  apply mul_lt_mul_of_pos_left _ (sigmoid_pos o)
  apply Real.exp_lt_exp.mpr
  have hE : (0 : ℝ) < Real.exp dur := Real.exp_pos dur
  have h2 : ((t1 - tc) / Real.exp dur) ^ 2 < ((t2 - tc) / Real.exp dur) ^ 2 := by
    rw [div_pow, div_pow]
    have hsq : (t1 - tc) ^ 2 < (t2 - tc) ^ 2 := by
      have := pow_lt_pow_left₀ h (abs_nonneg (t1 - tc)) (two_ne_zero)
      rwa [sq_abs, sq_abs] at this
    have hc : (0 : ℝ) < Real.exp dur ^ 2 := by positivity
    exact (div_lt_div_iff_of_pos_right hc).mpr hsq
  linarith

theorem sigmoid_torchLogit {y : ℝ} (h0 : 0 < y) (h1 : y < 1) :
    sigmoid (torchLogit y) = y := by
  unfold sigmoid torchLogit
  have hy1 : (0 : ℝ) < 1 - y := by linarith
  have hr : (0 : ℝ) < y / (1 - y) := div_pos h0 hy1
  rw [Real.exp_neg, Real.exp_log hr, inv_div]
  rw [show 1 + (1 - y) / y = 1 / y by field_simp]
  field_simp

/-! ### Claim theorems -/

/-- C6: for every primitive and every time `t`, `temporal_opacity`
is `sigmoid(opacity_logit) * exp(-0.5 ((t - time_center)/exp(log_duration))^2)`;
it lies in `[0, sigmoid(opacity_logit)]`, peaks at `t = time_center`
with value `sigmoid(opacity_logit)`, and strictly decreases as
`|t - time_center|` increases. -/
theorem c6_opacity_envelope :
    (∀ (g : DynamicGaussians) (t : ℝ) (i : ℕ), i < g.count →
      (g.temporal_opacity t).getD i 0 =
        sigmoid (g.opacities.getD i 0) *
          Real.exp (-(1 / 2) *
            ((t - g.times.getD i 0) / Real.exp (g.durations.getD i 0)) ^ 2)) ∧
    (∀ (g : DynamicGaussians) (t : ℝ) (i : ℕ), i < g.count →
      0 ≤ (g.temporal_opacity t).getD i 0 ∧
        (g.temporal_opacity t).getD i 0 ≤ sigmoid (g.opacities.getD i 0)) ∧
    (∀ (g : DynamicGaussians) (i : ℕ), i < g.count →
      (g.temporal_opacity (g.times.getD i 0)).getD i 0 =
        sigmoid (g.opacities.getD i 0)) ∧
    (∀ (g : DynamicGaussians) (i : ℕ) (t1 t2 : ℝ), i < g.count →
      |t1 - g.times.getD i 0| < |t2 - g.times.getD i 0| →
      (g.temporal_opacity t2).getD i 0 < (g.temporal_opacity t1).getD i 0) := by
  refine ⟨?_, ?_, ?_, ?_⟩
  · intro g t i h
    unfold DynamicGaussians.temporal_opacity
    rw [getD_range_map _ _ _ _ h]
    rfl
  · intro g t i h
    unfold DynamicGaussians.temporal_opacity
    rw [getD_range_map _ _ _ _ h]
    exact ⟨le_of_lt (gaussOpacity_pos _ _ _ _), gaussOpacity_le_sigmoid _ _ _ _⟩
  · intro g i h
    unfold DynamicGaussians.temporal_opacity
    rw [getD_range_map _ _ _ _ h]
    exact gaussOpacity_peak _ _ _
  · intro g i t1 t2 h habs
    unfold DynamicGaussians.temporal_opacity
    rw [getD_range_map _ _ _ _ h, getD_range_map _ _ _ _ h]
    exact gaussOpacity_strictAnti _ _ _ _ _ habs

/-- Witness for C6 at a concrete primitive (`opacity_logit = 2`,
`time_center = 2`, `log_duration = 0`): the opacity peaks at `t = 2` with
value `sigmoid 2` and is strictly smaller at `t = 3` than at `t = 2`. -/
theorem c6_opacity_envelope_witness :
    (gPeak.temporal_opacity 2).getD 0 0 = sigmoid 2 ∧
    (gPeak.temporal_opacity 3).getD 0 0 < (gPeak.temporal_opacity 2).getD 0 0 := by
  constructor
  · exact c6_opacity_envelope.2.2.1 gPeak 0 (by decide)
  · exact c6_opacity_envelope.2.2.2 gPeak 0 2 3 (by decide)
      (by show |(2 : ℝ) - 2| < |(3 : ℝ) - 2|; simp; norm_num)

/-- C7: `temporal_means(t) = means + (t - times) * velocities` with no
clamping, and at the spec's concrete primitive (`mean = [0,0,0]`,
`time_center = 1`, `velocity = [2,0,0]`) the positions at times `1`, `3`
and `0` are `[0,0,0]`, `[4,0,0]` and `[-2,0,0]`. -/
theorem c7_position_linearity :
    (∀ (g : DynamicGaussians) (t : ℝ) (i : ℕ), i < g.count →
      (g.temporal_means t).getD i (0, 0, 0) =
        vadd3 (g.means.getD i (0, 0, 0))
          (smul3 (t - g.times.getD i 0) (g.velocities.getD i (0, 0, 0)))) ∧
    gLinear.temporal_means 1 = [((0 : ℝ), (0 : ℝ), (0 : ℝ))] ∧
    gLinear.temporal_means 3 = [((4 : ℝ), (0 : ℝ), (0 : ℝ))] ∧
    gLinear.temporal_means 0 = [((-2 : ℝ), (0 : ℝ), (0 : ℝ))] := by
  refine ⟨?_, ?_, ?_, ?_⟩
  · intro g t i h
    unfold DynamicGaussians.temporal_means
    rw [getD_range_map _ _ _ _ h]
  all_goals simp [DynamicGaussians.temporal_means, gLinear, DynamicGaussians.initSet,
    DynamicGaussians.count, vadd3, smul3, List.range_succ]
  all_goals norm_num

/-- Witness for C7: the general formula applied to the concrete primitive
at time `3`. -/
theorem c7_position_linearity_witness :
    (gLinear.temporal_means 3).getD 0 (0, 0, 0) =
      vadd3 ((0 : ℝ), (0 : ℝ), (0 : ℝ)) (smul3 ((3 : ℝ) - 1) ((2 : ℝ), (0 : ℝ), (0 : ℝ))) :=
  c7_position_linearity.1 gLinear 3 0 (by decide)

/-- C8: whenever `temporal_opacity(t)` lies strictly inside
`(1e-8, 1 - 1e-8)`, the clamp in `temporal_opacity_logit` is the identity
and the logit round-trips: `sigmoid(temporal_opacity_logit(t)) =
temporal_opacity(t)` (exactly, in the real-number model). -/
theorem c8_logit_round_trip (g : DynamicGaussians) (t : ℝ) (i : ℕ)
    (hi : i < g.count)
    (hlo : 1e-8 < (g.temporal_opacity t).getD i 0)
    (hhi : (g.temporal_opacity t).getD i 0 < 1 - 1e-8) :
    sigmoid ((g.temporal_opacity_logit t).getD i 0) =
      (g.temporal_opacity t).getD i 0 := by
  have hlen : i < (g.temporal_opacity t).length := by
    unfold DynamicGaussians.temporal_opacity
    simpa using hi
  unfold DynamicGaussians.temporal_opacity_logit
  rw [getD_map_lt _ _ _ hlen 0 0]
  have hclamp : clampR ((g.temporal_opacity t).getD i 0) 1e-8 (1 - 1e-8) =
      (g.temporal_opacity t).getD i 0 := by
    unfold clampR
    rw [max_eq_left (le_of_lt hlo), min_eq_left (le_of_lt hhi)]
  rw [hclamp]
  have h0 : (0 : ℝ) < (g.temporal_opacity t).getD i 0 :=
    lt_trans (by norm_num) hlo
  have h1 : (g.temporal_opacity t).getD i 0 < 1 :=
    lt_trans hhi (by norm_num)
  exact sigmoid_torchLogit h0 h1

/-- Witness for C8 at a concrete primitive whose opacity at time `0` is
`1/2`, strictly inside the clamp interval. -/
theorem c8_logit_round_trip_witness :
    sigmoid ((gHalf.temporal_opacity_logit 0).getD 0 0) =
      (gHalf.temporal_opacity 0).getD 0 0 := by
  have hval : (gHalf.temporal_opacity 0).getD 0 0 = 1 / 2 := by
    show gaussOpacity 0 0 0 0 = 1 / 2
    unfold gaussOpacity sigmoid
    norm_num [Real.exp_zero]
  exact c8_logit_round_trip gHalf 0 0 (by decide)
    (by rw [hval]; norm_num) (by rw [hval]; norm_num)

/-- C3 counterexample: a nine-tuple whose leading dimensions disagree
(`means` has one row, every other array zero rows) and whose `sh_n` width
`1` is not a valid spherical-harmonic size is nevertheless accepted —
construction returns `ok`, no `ShapeError` is raised. -/
theorem c3_counterexample :
    (DynamicGaussians.construct [((0 : ℝ), (0 : ℝ), (0 : ℝ))] [] [] [] []
        { width := 1, rows := [] } [] [] []).isOk = true ∧
    ([((0 : ℝ), (0 : ℝ), (0 : ℝ))] : List Vec3).length ≠ ([] : List Vec3).length ∧
    validShWidth 1 = false := by
  have h2 : Nat.sqrt 2 = 1 := (Nat.eq_sqrt.mpr (by norm_num)).symm
  refine ⟨rfl, by decide, by simp [validShWidth, h2]⟩

/-- C3 amended: construction performs no validation and never fails — for
every nine input arrays (leading dimensions matching or not, `sh_n` width
valid or not) it returns `ok` with the arrays stored exactly as given (no
truncation or padding) and `sh_degree = isqrt(sh_n.width + 1) - 1`, the
floored value, even when that degree does not reproduce the width. -/
theorem c3_construct_never_fails (means scales : List Vec3) (quats : List Vec4)
    (opacities : List ℝ) (sh0 : List Vec3) (shN : Mat Vec3)
    (times durations : List ℝ) (velocities : List Vec3) :
    DynamicGaussians.construct means scales quats opacities sh0 shN
        times durations velocities =
      Except.ok
        { means := means, scales := scales, quats := quats,
          opacities := opacities, sh_0 := sh0, sh_n := shN, times := times,
          durations := durations, velocities := velocities,
          sh_degree := Nat.sqrt (shN.width + 1) - 1 } := rfl

/-- C4 counterexample: content in neither recognized form does not make
`load` fail — the source falls off the end of the function, so `load`
returns Python's `None` (no `LoadError` is raised). -/
theorem c4_counterexample :
    recognizedContent CheckpointContent.unrecognized = false ∧
    DynamicGaussians.load CheckpointContent.unrecognized = Except.ok none :=
  ⟨rfl, rfl⟩

/-- C4 amended: for every checkpoint content that is neither a recognized
full object nor a recognized parameter mapping, `load` returns `None`
without raising; it never returns a partial or default set. -/
theorem c4_load_unrecognized_returns_none (c : CheckpointContent)
    (h : recognizedContent c = false) :
    DynamicGaussians.load c = Except.ok none := by
  cases c with
  | fullObject g => simp [recognizedContent] at h
  | paramDict m s q o s0 sn t d v => simp [recognizedContent] at h
  | unrecognized => rfl

/-- Witness for the amended C4 at the unrecognized content. -/
theorem c4_load_unrecognized_returns_none_witness :
    DynamicGaussians.load CheckpointContent.unrecognized = Except.ok none :=
  c4_load_unrecognized_returns_none CheckpointContent.unrecognized rfl

/-- C9: union is always the ordered concatenation of the two operands'
arrays, and the empty set of the matching spherical-harmonic degree is a
left and right identity for union, element-wise on all nine arrays. -/
theorem c9_union_identity :
    (∀ a b : DynamicGaussians,
      (a.orOp b).means = a.means ++ b.means ∧
      (a.orOp b).scales = a.scales ++ b.scales ∧
      (a.orOp b).quats = a.quats ++ b.quats ∧
      (a.orOp b).opacities = a.opacities ++ b.opacities ∧
      (a.orOp b).sh_0 = a.sh_0 ++ b.sh_0 ∧
      (a.orOp b).sh_n.rows = a.sh_n.rows ++ b.sh_n.rows ∧
      (a.orOp b).times = a.times ++ b.times ∧
      (a.orOp b).durations = a.durations ++ b.durations ∧
      (a.orOp b).velocities = a.velocities ++ b.velocities) ∧
    (∀ (d : ℕ) (x : DynamicGaussians), x.sh_n.width = (d + 1) ^ 2 - 1 →
      (((DynamicGaussians.emptySet d).orOp x).means = x.means ∧
        ((DynamicGaussians.emptySet d).orOp x).scales = x.scales ∧
        ((DynamicGaussians.emptySet d).orOp x).quats = x.quats ∧
        ((DynamicGaussians.emptySet d).orOp x).opacities = x.opacities ∧
        ((DynamicGaussians.emptySet d).orOp x).sh_0 = x.sh_0 ∧
        ((DynamicGaussians.emptySet d).orOp x).sh_n = x.sh_n ∧
        ((DynamicGaussians.emptySet d).orOp x).times = x.times ∧
        ((DynamicGaussians.emptySet d).orOp x).durations = x.durations ∧
        ((DynamicGaussians.emptySet d).orOp x).velocities = x.velocities) ∧
      ((x.orOp (DynamicGaussians.emptySet d)).means = x.means ∧
        (x.orOp (DynamicGaussians.emptySet d)).scales = x.scales ∧
        (x.orOp (DynamicGaussians.emptySet d)).quats = x.quats ∧
        (x.orOp (DynamicGaussians.emptySet d)).opacities = x.opacities ∧
        (x.orOp (DynamicGaussians.emptySet d)).sh_0 = x.sh_0 ∧
        (x.orOp (DynamicGaussians.emptySet d)).sh_n = x.sh_n ∧
        (x.orOp (DynamicGaussians.emptySet d)).times = x.times ∧
        (x.orOp (DynamicGaussians.emptySet d)).durations = x.durations ∧
        (x.orOp (DynamicGaussians.emptySet d)).velocities = x.velocities)) := by
  constructor
  · intro a b
    exact ⟨rfl, rfl, rfl, rfl, rfl, rfl, rfl, rfl, rfl⟩
  · intro d x h
    constructor
    · refine ⟨rfl, rfl, rfl, rfl, rfl, ?_, rfl, rfl, rfl⟩
      show Mat.mk ((d + 1) ^ 2 - 1) ([] ++ x.sh_n.rows) = x.sh_n
      rw [List.nil_append, ← h]
    · refine ⟨?_, ?_, ?_, ?_, ?_, ?_, ?_, ?_, ?_⟩ <;>
        simp [DynamicGaussians.orOp, DynamicGaussians.initSet,
          DynamicGaussians.emptySet, Mat.cat]

/-- Witness for C9: the empty set of degree `0` is an identity for the
concrete one-primitive set `gPeak` (whose `sh_n` width is `0`). -/
theorem c9_union_identity_witness :
    ((DynamicGaussians.emptySet 0).orOp gPeak).means = gPeak.means ∧
    ((DynamicGaussians.emptySet 0).orOp gPeak).sh_n = gPeak.sh_n ∧
    (gPeak.orOp (DynamicGaussians.emptySet 0)).opacities = gPeak.opacities := by
  have h := c9_union_identity.2 0 gPeak (by decide)
  exact ⟨h.1.1, h.1.2.2.2.2.2.1, h.2.2.2.2.1⟩

/-- C2: `evenly_distributed_bool` (the spec's `classify_static`) equals
`entropy_indices` applied to the `N×300` matrix whose entry `(i, k)` is
primitive `i`'s opacity sampled at `k / 30` — fps 30, 300 frames, the
entropy threshold and eps passed through unchanged. -/
theorem c2_classify_static (g : DynamicGaussians) (entropy_threshold eps : ℝ) :
    evenly_distributed_bool g entropy_threshold eps =
      entropy_indices (sampleMat g) entropy_threshold eps := by
  have hlen : (((List.range 300).map fun (idx : ℕ) =>
      g.temporal_opacity ((idx : ℝ) / 30)).headD []).length = g.count := by
    rw [show (300 : ℕ) = 299 + 1 from rfl, List.range_succ_eq_map]
    simp [DynamicGaussians.temporal_opacity]
  have hrows : (List.range g.count).map
      (fun i => ((List.range 300).map fun (idx : ℕ) =>
        g.temporal_opacity ((idx : ℝ) / 30)).map fun col => col.getD i 0) =
      (List.range g.count).map
      (fun i => (List.range 300).map fun (k : ℕ) =>
        (g.temporal_opacity ((k : ℝ) / 30)).getD i 0) := by
    apply List.map_congr_left
    intro i _
    rw [List.map_map]
    rfl
  unfold evenly_distributed_bool entropy_indices stackDim1 sampleMat
  simp only [List.length_map, List.length_range]
  rw [hlen, hrows]

/-- C10: every primitive's opacity is strictly positive at every time, so
`opacity_bool` (the spec's `visible_at`) with threshold `0` marks every
primitive visible, and every row of the entropy sampling matrix has a
strictly positive sum — the all-zero-row branch of the normalization is
unreachable on such input. -/
theorem c10_opacity_strictly_positive (g : DynamicGaussians) (t : ℝ) (i : ℕ)
    (hi : i < g.count) :
    0 < (g.temporal_opacity t).getD i 0 ∧
    ((g.opacity_bool t 0).getD i False) ∧
    0 < ((sampleMat g).rows.getD i []).sum := by
  have hop : ∀ s : ℝ, (g.temporal_opacity s).getD i 0 =
      gaussOpacity (g.opacities.getD i 0) (g.times.getD i 0)
        (g.durations.getD i 0) s := by
    intro s
    unfold DynamicGaussians.temporal_opacity
    rw [getD_range_map _ _ _ _ hi]
  have hlen : i < (g.temporal_opacity t).length := by
    unfold DynamicGaussians.temporal_opacity
    simpa using hi
  refine ⟨?_, ?_, ?_⟩
  · rw [hop t]
    exact gaussOpacity_pos _ _ _ _
  · unfold DynamicGaussians.opacity_bool
    rw [getD_map_lt _ _ _ hlen False 0, hop t]
    exact gaussOpacity_pos _ _ _ _
  · unfold sampleMat
    simp only []
    rw [getD_range_map _ _ _ _ hi]
    apply List.sum_pos
    · intro x hx
      obtain ⟨k, _, rfl⟩ := List.mem_map.mp hx
      rw [hop]
      exact gaussOpacity_pos _ _ _ _
    · simp

/-- Witness for C10 at the concrete one-primitive set `gHalf` at time `0`. -/
theorem c10_opacity_strictly_positive_witness :
    0 < (gHalf.temporal_opacity 0).getD 0 0 ∧
    ((gHalf.opacity_bool 0 0).getD 0 False) ∧
    0 < ((sampleMat gHalf).rows.getD 0 []).sum :=
  c10_opacity_strictly_positive gHalf 0 0 (by decide)

/-! ### Numeric bounds for the entropy claims -/

theorem log300_gt_two : 2 < Real.log 300 := by
  rw [Real.lt_log_iff_exp_lt (by norm_num : (0:ℝ) < 300)]
  have h1 : Real.exp 1 < 2.7182818286 := Real.exp_one_lt_d9
  have h2 : Real.exp 2 = Real.exp 1 * Real.exp 1 := by
    rw [← Real.exp_add]; norm_num
  nlinarith [Real.exp_pos 1]

theorem log300_pos : 0 < Real.log 300 := lt_trans (by norm_num) log300_gt_two

theorem log10_le_nine : Real.log 10 ≤ 9 := by
  have := Real.log_le_sub_one_of_pos (by norm_num : (0:ℝ) < 10)
  linarith

theorem log10_gt_one : 1 < Real.log 10 := by
  rw [Real.lt_log_iff_exp_lt (by norm_num : (0:ℝ) < 10)]
  have h1 : Real.exp 1 < 2.7182818286 := Real.exp_one_lt_d9
  linarith

theorem log_eps_eq : Real.log (1e-12 : ℝ) = -(12 * Real.log 10) := by
  rw [show (1e-12 : ℝ) = ((10:ℝ)^(12:ℕ))⁻¹ by norm_num, Real.log_inv, Real.log_pow]
  norm_num

/-- `rowU` on a constant row in closed form. -/
theorem rowU_replicate (n : ℕ) (c eps : ℝ) :
    rowU (List.replicate n c) n eps =
      -((n : ℝ) * ((c / ((n : ℝ) * c + eps) + eps) *
        Real.log (c / ((n : ℝ) * c + eps) + eps))) / Real.log (n : ℝ) := by
  unfold rowU
  simp [List.map_replicate, List.sum_replicate, nsmul_eq_mul]

/-- `rowU` on the one-hot row `1 :: 0^299` in closed form. -/
theorem rowU_spike_val : rowU ((1:ℝ) :: List.replicate 299 0) 300 1e-12 =
    -((1/(1+1e-12)+1e-12) * Real.log (1/(1+1e-12)+1e-12)
      + 299*((1e-12) * Real.log (1e-12 : ℝ))) / Real.log 300 := by
  unfold rowU
  simp only [List.sum_cons, List.sum_replicate, List.map_cons, List.map_replicate,
    smul_zero, add_zero, zero_div, zero_add, nsmul_eq_mul, Nat.cast_ofNat]

theorem uconst_gt (q : ℝ) (hq : 0 < q) (hs1 : 1 < 300 * q)
    (hs2 : 300 * q < 1 + 3e-10) :
    Real.log 300 < -(300 * (q * Real.log q)) := by
  have hlogmul : Real.log (300 * q) = Real.log 300 + Real.log q :=
    Real.log_mul (by norm_num) (ne_of_gt hq)
  have hkey : Real.log (300 * q) ≤ 300 * q - 1 :=
    Real.log_le_sub_one_of_pos (by positivity)
  have hneg : Real.log 300 + 1 - 300 * q ≤ -Real.log q := by linarith
  have hH : 300 * q * (Real.log 300 + 1 - 300 * q) ≤ 300 * q * (-Real.log q) :=
    mul_le_mul_of_nonneg_left hneg (by positivity)
  have hprod : 0 < (300 * q - 1) * (Real.log 300 - 300 * q) :=
    mul_pos (by linarith) (by linarith [log300_gt_two])
  nlinarith

theorem uconst_le (q : ℝ) (hq : 0 < q) (h1_300 : 1/300 ≤ q)
    (hs2 : 300 * q < 1 + 3e-10) :
    -(300 * (q * Real.log q)) ≤ (1 + 1e-9) * Real.log 300 := by
  have hlq : Real.log (1/300) ≤ Real.log q :=
    (Real.log_le_log_iff (by norm_num) hq).mpr h1_300
  have hinv : Real.log ((1:ℝ)/300) = -Real.log 300 := by
    rw [one_div, Real.log_inv]
  have hnl : -Real.log q ≤ Real.log 300 := by linarith
  have hH2 : 300 * q * (-Real.log q) ≤ 300 * q * Real.log 300 :=
    mul_le_mul_of_nonneg_left hnl (by positivity)
  have hH3 : 300 * q * Real.log 300 ≤ (1 + 3e-10) * Real.log 300 :=
    mul_le_mul_of_nonneg_right (le_of_lt hs2) (le_of_lt log300_pos)
  nlinarith [log300_pos]

theorem uspike_bounds (q1 Le : ℝ) (h1 : 1 ≤ q1) (h2 : q1 ≤ 1 + 1e-12)
    (hLe_lo : -108 ≤ Le) (hLe_hi : Le ≤ -12) :
    0 < -(q1 * Real.log q1 + 299 * (1e-12 * Le)) ∧
    -(q1 * Real.log q1 + 299 * (1e-12 * Le)) < 3/4 * Real.log 300 := by
  have hq1pos : (0:ℝ) < q1 := by linarith
  have hL1 : 0 ≤ Real.log q1 := Real.log_nonneg h1
  have hL1le : Real.log q1 ≤ q1 - 1 := Real.log_le_sub_one_of_pos hq1pos
  constructor
  · have hm : q1 * Real.log q1 ≤ q1 * (q1 - 1) :=
      mul_le_mul_of_nonneg_left hL1le (le_of_lt hq1pos)
    nlinarith
  · have hm0 : 0 ≤ q1 * Real.log q1 := mul_nonneg (le_of_lt hq1pos) hL1
    nlinarith [log300_gt_two]

/-- The constant row `0.5^300` has normalized entropy strictly above `1`
under the source's double-epsilon entropy formula. -/
theorem rowU_const_gt_one : 1 < rowU (List.replicate 300 ((1:ℝ)/2)) 300 1e-12 := by
  rw [rowU_replicate]
  simp only [Nat.cast_ofNat]
  have hy : ((1:ℝ)/2) / (300 * ((1:ℝ)/2) + 1e-12) * (300 * ((1:ℝ)/2) + 1e-12) = 1/2 :=
    div_mul_cancel₀ _ (by norm_num)
  exact (one_lt_div log300_pos).mpr
    (uconst_gt _ (by positivity) (by linarith) (by linarith))

/-- The constant row's normalized entropy exceeds `1` by at most `1e-9`. -/
theorem rowU_const_le_bound :
    rowU (List.replicate 300 ((1:ℝ)/2)) 300 1e-12 ≤ 1 + 1e-9 := by
  rw [rowU_replicate]
  simp only [Nat.cast_ofNat]
  have hy : ((1:ℝ)/2) / (300 * ((1:ℝ)/2) + 1e-12) * (300 * ((1:ℝ)/2) + 1e-12) = 1/2 :=
    div_mul_cancel₀ _ (by norm_num)
  rw [div_le_iff₀ log300_pos]
  exact uconst_le _ (by positivity) (by linarith) (by linarith)

/-- The one-hot row's normalized entropy is strictly positive. -/
theorem rowU_spike_pos : 0 < rowU ((1:ℝ) :: List.replicate 299 0) 300 1e-12 := by
  rw [rowU_spike_val]
  apply div_pos ?_ log300_pos
  have hy1 : (1:ℝ)/(1+1e-12) * (1+1e-12) = 1 := div_mul_cancel₀ _ (by norm_num)
  have hLe_lo : -108 ≤ Real.log (1e-12 : ℝ) := by
    rw [log_eps_eq]; linarith [log10_le_nine]
  have hLe_hi : Real.log (1e-12 : ℝ) ≤ -12 := by
    rw [log_eps_eq]; linarith [log10_gt_one]
  exact (uspike_bounds _ _ (by linarith) (by linarith) hLe_lo hLe_hi).1

/-- The one-hot row's normalized entropy is below the default threshold. -/
theorem rowU_spike_lt : rowU ((1:ℝ) :: List.replicate 299 0) 300 1e-12 < 3/4 := by
  rw [rowU_spike_val]
  rw [div_lt_iff₀ log300_pos]
  have hy1 : (1:ℝ)/(1+1e-12) * (1+1e-12) = 1 := div_mul_cancel₀ _ (by norm_num)
  have hLe_lo : -108 ≤ Real.log (1e-12 : ℝ) := by
    rw [log_eps_eq]; linarith [log10_le_nine]
  have hLe_hi : Real.log (1e-12 : ℝ) ≤ -12 := by
    rw [log_eps_eq]; linarith [log10_gt_one]
  exact (uspike_bounds _ _ (by linarith) (by linarith) hLe_lo hLe_hi).2

/-- C1 counterexample: on the row `[1, 0]` with `T = 2` and the default
`eps = 1e-12`, the normalized entropy the source computes (`rowU`, whose
in-place `p.add_(eps)` makes both product factors `p + eps`) differs from
the specification's formula `H = -Σ p·log(p + eps)` (`rowUspec`). -/
theorem c1_counterexample :
    rowU [(1 : ℝ), 0] 2 (1e-12) ≠ rowUspec [(1 : ℝ), 0] 2 (1e-12) := by
  intro h
  unfold rowU rowUspec at h
  simp only [List.map_cons, List.map_nil, List.sum_cons, List.sum_nil,
    add_zero, zero_div, zero_add, zero_mul] at h
  have hlog2 : Real.log 2 ≠ 0 := ne_of_gt (Real.log_pos (by norm_num))
  have h2 : ((2 : ℕ) : ℝ) = (2 : ℝ) := by norm_num
  rw [h2] at h
  have hAB := congrArg (fun z => z * Real.log 2) h
  simp only [div_mul_cancel₀ _ hlog2] at hAB
  set a := Real.log (1 / (1 + 1e-12) + 1e-12) with ha
  set b := Real.log ((0 : ℝ) + 1e-12) with hb
  have hab : a + b = 0 := by nlinarith [hAB]
  have hq1 : (0 : ℝ) < 1 / (1 + 1e-12) + 1e-12 := by positivity
  have hmul : Real.log ((1 / (1 + (1e-12 : ℝ)) + 1e-12) * (0 + 1e-12)) = a + b := by
    rw [ha, hb]
    exact Real.log_mul (ne_of_gt hq1) (by norm_num)
  have hy : (1 : ℝ) / (1 + 1e-12) * (1 + 1e-12) = 1 :=
    div_mul_cancel₀ _ (by norm_num)
  have hlt : (1 / (1 + (1e-12 : ℝ)) + 1e-12) * (0 + 1e-12) < 1 := by nlinarith
  have hpos : (0 : ℝ) < (1 / (1 + (1e-12 : ℝ)) + 1e-12) * (0 + 1e-12) := by positivity
  have hneg := Real.log_neg hpos hlt
  rw [hmul, hab] at hneg
  exact lt_irrefl 0 hneg

/-- C1 amended: `entropy_indices` normalizes each row by `(row sum + eps)`,
then adds `eps` to the normalized probabilities in place, computes
`H = -Σ (p+eps)·log(p+eps)`, divides by `log T`, and returns per row the
boolean `normalized entropy ≥ entropy_threshold`. -/
theorem c1_entropy_indices_formula (x : Mat ℝ) (entropy_threshold eps : ℝ) :
    entropy_indices x entropy_threshold eps =
      x.rows.map fun row => entropy_threshold ≤
        (-((row.map fun v =>
          (v / (row.sum + eps) + eps) * Real.log (v / (row.sum + eps) + eps)).sum)) /
          Real.log (x.width : ℝ) := by
  unfold entropy_indices rowU
  simp only [List.map_map]
  rfl

/-- C5 counterexample: the constant row with opacity `1/2` at every one of
the `T = 300` steps has normalized entropy strictly greater than `1` — not
exactly `1`, and outside `[0, 1]`. -/
theorem c5_counterexample :
    rowU (List.replicate 300 ((1:ℝ)/2)) 300 1e-12 ≠ 1 ∧
    ¬(rowU (List.replicate 300 ((1:ℝ)/2)) 300 1e-12 ≤ 1) :=
  ⟨ne_of_gt rowU_const_gt_one, not_le.mpr rowU_const_gt_one⟩

/-- C5 amended: the constant-`1/2` row over `300` steps has normalized
entropy in `(1, 1 + 1e-9]` — above `1`, but within `1e-9` of it — so it is
classified static at every threshold `≤ 1`; the row with opacity `1` at one
step and `0` elsewhere has normalized entropy in `(0, 3/4)` and is
classified dynamic at the default threshold `3/4`. -/
theorem c5_entropy_bounds :
    (1 < rowU (List.replicate 300 ((1:ℝ)/2)) 300 1e-12) ∧
    (rowU (List.replicate 300 ((1:ℝ)/2)) 300 1e-12 ≤ 1 + 1e-9) ∧
    (∀ thr : ℝ, thr ≤ 1 →
      (entropy_indices { width := 300, rows := [List.replicate 300 ((1:ℝ)/2)] }
        thr 1e-12).getD 0 False) ∧
    (0 < rowU ((1:ℝ) :: List.replicate 299 0) 300 1e-12) ∧
    (rowU ((1:ℝ) :: List.replicate 299 0) 300 1e-12 < 3/4) ∧
    ¬((entropy_indices { width := 300, rows := [(1:ℝ) :: List.replicate 299 0] }
        (3/4) 1e-12).getD 0 False) := by
  refine ⟨rowU_const_gt_one, rowU_const_le_bound, ?_, rowU_spike_pos,
    rowU_spike_lt, ?_⟩
  · intro thr hthr
    show thr ≤ rowU (List.replicate 300 ((1:ℝ)/2)) 300 1e-12
    linarith [rowU_const_gt_one]
  · show ¬((3:ℝ)/4 ≤ rowU ((1:ℝ) :: List.replicate 299 0) 300 1e-12)
    exact not_le.mpr rowU_spike_lt

/-- Witness for the amended C5: the constant row is classified static at
the default threshold `3/4`. -/
theorem c5_entropy_bounds_witness :
    (entropy_indices { width := 300, rows := [List.replicate 300 ((1:ℝ)/2)] }
      (3/4) 1e-12).getD 0 False :=
  c5_entropy_bounds.2.2.1 (3/4) (by norm_num)
